import Mathlib

/-!
Shallow embedding of the core simulation engine of "The Hatchery"
(src/game/src/engine/{rng,state,effects,generator,reducer}.ts and the
election-night roll logic of the UI screen).

Machine numbers: the TypeScript code works on JS doubles, but every value the
engine stores or compares is an integer (resource amounts, union stats,
32-bit RNG words).  The embedding uses `Nat` for 32-bit RNG words (explicitly
reduced mod 2^32 where JS coerces with `|0` / `>>>0` / `Math.imul`) and `Int`
for resources and union stats.  Multiplications by the float literals 0.6 and
0.35 in the probability formulas are embedded as exact rational floors
(`(3*p).ediv 5`, `(7*i).ediv 20`); for every integer stat in the range the
program produces ([0,100]) the double computation `Math.floor(p*0.6)` /
`Math.floor(i*0.35)` returns exactly that value (the rounding error of the
double product is far smaller than the distance to the nearest floor
boundary, and at the exact-integer products the rounding lands on the
integer), so the embedding agrees with the source on the program's domain.
-/

namespace Hatchery

-- ============================================
-- Deterministic RNG (Mulberry32), src rng.ts
-- ============================================

/-- 2^32, the modulus of all JS 32-bit coercions (`|0`, `>>>0`, `Math.imul`). -/
def U32 : Nat := 4294967296

/-- One step of the Mulberry32 generator (`next()` in rng.ts).  The input is
the current 32-bit state word `a`; the result is the new state word (what a
subsequent `getCursor()` returns) together with the 32-bit output word `out`;
the JS float returned by `next()` is exactly `out / 2^32`. -/
def mbStep (a : Nat) : Nat × Nat :=
  let a1 := (a + 1831565813) % U32
  let t1 := ((Nat.xor a1 (Nat.shiftRight a1 15)) * (Nat.lor 1 a1)) % U32
  let t2 := Nat.xor t1
    ((t1 + ((Nat.xor t1 (Nat.shiftRight t1 7)) * (Nat.lor 61 t1)) % U32) % U32)
  (a1, Nat.xor t2 (Nat.shiftRight t2 14))

/-- `createRNG(seed)` normalizes the seed with `seed >>> 0`. -/
def rngInit (seed : Nat) : Nat := seed % U32

/-- `nextInt(min,max)`: `Math.floor(next() * (max - min + 1)) + min`.
The float product is exact (numerator below 2^53), so the floor is the Nat
division by 2^32.  Returns (new state word, drawn integer). -/
def rngNextInt (a lo hi : Nat) : Nat × Nat :=
  let s := mbStep a
  (s.1, s.2 * (hi - lo + 1) / U32 + lo)

/-- `pick(items)`: uniform pick via `nextInt(0, items.length - 1)`.
The drawn index is `< items.length` whenever the list is nonempty, so `getD`
never falls back to the default for the nonempty lists the engine uses. -/
def rngPick (a : Nat) (items : List String) : Nat × String :=
  let s := rngNextInt a 0 (items.length - 1)
  (s.1, items.getD s.2 "")

/-- Index selected by `weightedPick`: the JS code draws
`roll = next() * totalWeight` and subtracts weights until `roll <= 0`.
With `r = out * total` (the roll numerator scaled by 2^32), the comparison
after subtracting the cumulative weight `w` is `r ≤ w * 2^32`, exact.  The
last item is the guaranteed fallback. -/
def weightedIdx (r : Nat) : List Nat → Nat
  | [] => 0
  | [_] => 0
  | w :: ws => if r ≤ w * U32 then 0 else 1 + weightedIdx (r - w * U32) ws

/-- `weightedPick(items, weights)` for string items. -/
def rngWeightedPick (a : Nat) (items : List String) (weights : List Nat) :
    Nat × String :=
  let s := mbStep a
  let idx := weightedIdx (s.2 * weights.sum) weights
  (s.1, items.getD idx "")

-- ============================================
-- Data model, src state.ts
-- ============================================

structure Resources where
  paperwork : Int
  patronage : Int
  legitimacy : Int
  auditRisk : Int
  streetHeat : Int
deriving Repr, DecidableEq

inductive IncubationMode where
  | paperwork
  | discipline
deriving Repr, DecidableEq

structure UnionEntity where
  id : String
  name : String
  sector : String
  plausibility : Int
  loyalty : Int
  integrity : Int
  maintenanceCost : Int
  tags : List String
  isIncubated : Bool
  isLicensed : Bool
  isCracked : Bool
  incubationMode : Option IncubationMode := none
deriving Repr, DecidableEq

inductive Recognition where
  | recognized
  | unrecognized
deriving Repr, DecidableEq

structure FederationEntity where
  id : String
  name : String
  unionIds : List String
  delegates : Int
  recognition : Recognition
  visibility : Int
deriving Repr, DecidableEq

inductive GamePhase where
  | menu
  | playing
  | event
  | election
  | ended
deriving Repr, DecidableEq

inductive Ending where
  | capture
  | collapse
  | whistleblower
deriving Repr, DecidableEq

/-- JS `Record<string, T>` objects keep string-key insertion order; the
embedding is an insertion-ordered association list. -/
abbrev Rec (α : Type) := List (String × α)

/-- Property lookup `obj[k]`. -/
def recLookup {α : Type} (l : Rec α) (k : String) : Option α :=
  match l with
  | [] => none
  | (k', v) :: rest => if k' = k then some v else recLookup rest k

/-- Assignment `obj[k] = v` / spread `{...obj, [k]: v}`: updates the value in
place when the key exists, otherwise appends (JS insertion-order semantics). -/
def recInsert {α : Type} (l : Rec α) (k : String) (v : α) : Rec α :=
  match l with
  | [] => [(k, v)]
  | (k', v') :: rest =>
      if k' = k then (k', v) :: rest else (k', v') :: recInsert rest k v

/-- Rest-destructuring `const {[k]: removed, ...rest} = obj`. -/
def recRemove {α : Type} (l : Rec α) (k : String) : Rec α :=
  match l with
  | [] => []
  | (k', v') :: rest =>
      if k' = k then rest else (k', v') :: recRemove rest k

/-- `Object.values(obj)` in insertion order. -/
def recValues {α : Type} (l : Rec α) : List α := l.map Prod.snd

structure RunState where
  seed : Nat
  rngCursor : Nat
  cycle : Nat
  maxCycles : Nat
  phase : GamePhase
  resources : Resources
  unions : Rec UnionEntity
  federations : Rec FederationEntity
  eventHistory : List String
  currentEventId : Option String
  unlockedFootnotes : List String
  ending : Option Ending
  showTips : Bool
  unionsGeneratedInCycle : Bool
deriving Repr, DecidableEq

def DEFAULT_RESOURCES : Resources :=
  { paperwork := 3, patronage := 5, legitimacy := 70, auditRisk := 10,
    streetHeat := 5 }

/-- Ambient, non-deterministic context the engine reads outside of the seeded
RNG: `Date.now()` (used by `generateId` and the federation id), the
module-level mutable `idCounter` of generator.ts, and the unseeded
`Math.random()` used by `createInitialState` when no seed is supplied
(modelled as the already-floored integer draw). -/
structure Ambient where
  now : Nat
  idCounter : Nat
  randomDraw : Nat
deriving Repr, DecidableEq

/-- `createInitialState(seed?, showTips = false)` from state.ts. -/
def createInitialState (env : Ambient) (seed : Option Nat)
    (showTips : Bool) : RunState :=
  let actualSeed := seed.getD env.randomDraw
  { seed := actualSeed
    rngCursor := actualSeed
    cycle := 1
    maxCycles := 5
    phase := GamePhase.menu
    resources := DEFAULT_RESOURCES
    unions := []
    federations := []
    eventHistory := []
    currentEventId := none
    unlockedFootnotes := []
    ending := none
    showTips := showTips
    unionsGeneratedInCycle := false }

inductive LoseCondition where
  | legitimacy
  | audit
  | street
deriving Repr, DecidableEq

def checkLoseCondition (state : RunState) : Option LoseCondition :=
  if state.resources.legitimacy ≤ 0 then some LoseCondition.legitimacy
  else if state.resources.auditRisk ≥ 100 then some LoseCondition.audit
  else if state.resources.streetHeat ≥ 100 then some LoseCondition.street
  else none

/-- `getLicenseChance`: `Math.min(95, 30 + Math.floor(plausibility * 0.6))`;
`Math.floor(p * 0.6) = ⌊3p/5⌋` for the integer stats the program produces. -/
def getLicenseChance (u : UnionEntity) : Int :=
  min 95 (30 + (3 * u.plausibility).ediv 5)

/-- `getCrackRisk`: `Math.max(5, 40 - Math.floor(integrity * 0.35))`;
`Math.floor(i * 0.35) = ⌊7i/20⌋` for the integer stats the program produces. -/
def getCrackRisk (u : UnionEntity) : Int :=
  max 5 (40 - (7 * u.integrity).ediv 20)

/-- `getDissolveReward`: `1 + Math.floor(plausibility / 30)`. -/
def getDissolveReward (u : UnionEntity) : Int :=
  1 + u.plausibility.ediv 30

/-- `getReassignReward`: `1 + Math.floor(loyalty / 25)`. -/
def getReassignReward (u : UnionEntity) : Int :=
  1 + u.loyalty.ediv 25

-- ============================================
-- Effects / clamping, src effects.ts
-- ============================================

def clamp (v lo hi : Int) : Int := max lo (min hi v)

/-- `Partial<Resources>`: absent fields contribute `?? 0`. -/
structure ResourceEffects where
  paperwork : Option Int := none
  patronage : Option Int := none
  legitimacy : Option Int := none
  auditRisk : Option Int := none
  streetHeat : Option Int := none
deriving Repr, DecidableEq

def applyResourceEffects (resources : Resources) (effects : ResourceEffects) :
    Resources :=
  { paperwork := clamp (resources.paperwork + effects.paperwork.getD 0) 0 10
    patronage := clamp (resources.patronage + effects.patronage.getD 0) 0 20
    legitimacy := clamp (resources.legitimacy + effects.legitimacy.getD 0) 0 100
    auditRisk := clamp (resources.auditRisk + effects.auditRisk.getD 0) 0 100
    streetHeat := clamp (resources.streetHeat + effects.streetHeat.getD 0) 0 100 }

structure UnionStatEffects where
  plausibility : Option Int := none
  loyalty : Option Int := none
  integrity : Option Int := none
deriving Repr, DecidableEq

def applyUnionEffects (u : UnionEntity) (effects : UnionStatEffects) :
    UnionEntity :=
  { u with
    plausibility := clamp (u.plausibility + effects.plausibility.getD 0) 0 100
    loyalty := clamp (u.loyalty + effects.loyalty.getD 0) 0 100
    integrity := clamp (u.integrity + effects.integrity.getD 0) 0 100 }

/-- `calculateUpkeep` from effects.ts. -/
def calculateUpkeep (state : RunState) : ResourceEffects :=
  let unionCount := state.unions.length
  let federationCount := state.federations.length
  let unions := recValues state.unions
  let shellCount :=
    (unions.filter (fun u =>
      u.tags.contains "compliant" || u.tags.contains "shell")).length
  let auditIncrease : Int := unionCount / 5 + federationCount + shellCount
  let paperworkRefresh : Int := 6 - state.resources.paperwork
  let totalDelegates : Int :=
    ((recValues state.federations).filter
      (fun f => f.recognition = Recognition.recognized)).foldl
      (fun sum f => sum + f.delegates) 0
  let patronageIncome : Int := 7 + totalDelegates * 1
  let streetHeatDecay : Int := if state.resources.streetHeat > 0 then -2 else 0
  let legitimacyDecay : Int :=
    if shellCount > 2 then -((shellCount : Int) - 2) else 0
  { paperwork := some paperworkRefresh
    patronage := some patronageIncome
    auditRisk := some auditIncrease
    streetHeat := some streetHeatDecay
    legitimacy := some legitimacyDecay }

-- ============================================
-- Procedural generator, src generator.ts
-- ============================================

def NAME_PREFIXES : List String :=
  ["United", "Democratic", "Free", "National", "Workers\x27", "People\x27s",
   "Progressive", "Independent", "Sovereign", "Authentic", "Reformed", "New"]

def NAME_SECTORS : List String :=
  ["Textile", "Transport", "Municipal", "Agricultural", "Hospitality",
   "Construction", "Maritime", "Printing", "Banking", "Telecommunications",
   "Postal", "Railway"]

def NAME_SUFFIXES : List String :=
  ["Federation", "Syndicate", "Brotherhood", "Assembly", "Council",
   "Alliance", "Union", "Collective", "Association", "Movement"]

def NAME_MODIFIERS : List String :=
  ["of Greater Beirut", "of the North", "of the South", "of the Coast",
   "of Mount Lebanon", "(Reformed)", "(Unified)", "(Traditional)",
   "(Modernized)", "", "", ""]

/-- `generateId()`: `` `union_${Date.now()}_${++idCounter}` `` — reads the
wall clock and increments the module-global counter.  Returns the id and the
new counter value. -/
def generateId (env : Ambient) (counter : Nat) : String × Nat :=
  ("union_" ++ Nat.repr env.now ++ "_" ++ Nat.repr (counter + 1), counter + 1)

/-- `generateUnionName(rng)`: four sequential picks, name assembled with the
optional modifier (empty modifier is falsy, so it is omitted). -/
def generateUnionName (a : Nat) : Nat × String × String :=
  let s1 := rngPick a NAME_PREFIXES
  let s2 := rngPick s1.1 NAME_SECTORS
  let s3 := rngPick s2.1 NAME_SUFFIXES
  let s4 := rngPick s3.1 NAME_MODIFIERS
  let name :=
    if s4.2 ≠ "" then
      s1.2 ++ " " ++ s2.2 ++ " " ++ s3.2 ++ " " ++ s4.2
    else
      s1.2 ++ " " ++ s2.2 ++ " " ++ s3.2
  (s4.1, name.trim, s2.2)

structure UnionStats where
  plausibility : Int
  loyalty : Int
  integrity : Int
  maintenanceCost : Int
  tags : List String
deriving Repr, DecidableEq

/-- `generateUnionStats(rng)`: weighted archetype roll, then the archetype's
stat rolls in source order. -/
def generateUnionStats (a : Nat) : Nat × UnionStats :=
  let s0 := rngWeightedPick a ["shell", "captured", "authentic", "volatile"]
    [40, 30, 20, 10]
  let archetype := s0.2
  if archetype = "shell" then
    let p := rngNextInt s0.1 70 95
    let l := rngNextInt p.1 80 100
    let i := rngNextInt l.1 5 20
    (i.1, ⟨p.2, l.2, i.2, 0, [archetype, "compliant"]⟩)
  else if archetype = "captured" then
    let p := rngNextInt s0.1 50 75
    let l := rngNextInt p.1 60 85
    let i := rngNextInt l.1 30 50
    (i.1, ⟨p.2, l.2, i.2, 1, [archetype]⟩)
  else if archetype = "authentic" then
    let p := rngNextInt s0.1 30 60
    let l := rngNextInt p.1 20 50
    let i := rngNextInt l.1 70 95
    let m := rngNextInt i.1 3 5
    (m.1, ⟨p.2, l.2, i.2, m.2, [archetype, "restless"]⟩)
  else
    let p := rngNextInt s0.1 20 80
    let l := rngNextInt p.1 10 40
    let i := rngNextInt l.1 40 70
    let m := rngNextInt i.1 2 4
    (m.1, ⟨p.2, l.2, i.2, m.2, [archetype, "unpredictable"]⟩)

/-- `generateUnion(rng)`: name draws, then stat draws, then the ambient id.
Returns the new RNG word, the new global id counter, and the entity. -/
def generateUnion (env : Ambient) (a counter : Nat) :
    Nat × Nat × UnionEntity :=
  let n := generateUnionName a
  let s := generateUnionStats n.1
  let idc := generateId env counter
  (s.1, idc.2,
    { id := idc.1
      name := n.2.1
      sector := n.2.2
      plausibility := s.2.plausibility
      loyalty := s.2.loyalty
      integrity := s.2.integrity
      maintenanceCost := s.2.maintenanceCost
      tags := s.2.tags
      isIncubated := false
      isLicensed := false
      isCracked := false
      incubationMode := none })

def FEDERATION_PREFIXES : List String :=
  ["General", "Central", "National", "United", "Federated", "Allied",
   "Combined"]

def FEDERATION_SUFFIXES : List String :=
  ["Labor Coalition", "Workers\x27 Federation", "Trade Council",
   "Syndicate Alliance", "Union Bloc"]

instance : Inhabited UnionEntity :=
  ⟨{ id := "", name := "", sector := "", plausibility := 0, loyalty := 0,
     integrity := 0, maintenanceCost := 0, tags := [], isIncubated := false,
     isLicensed := false, isCracked := false, incubationMode := none }⟩

/-- `generateFederationName(rng, unions)`: prefix and suffix picks, then —
only when the member list is nonempty (JS `&&` short-circuit) — a coin flip
`rng.next() > 0.5` (exactly `out > 2^31`) and possibly a sector splice. -/
def generateFederationName (a : Nat) (unions : List UnionEntity) :
    Nat × String :=
  let s1 := rngPick a FEDERATION_PREFIXES
  let s2 := rngPick s1.1 FEDERATION_SUFFIXES
  if unions.length > 0 then
    let c := mbStep s2.1
    if c.2 > 2147483648 then
      let s3 := rngNextInt c.1 0 (unions.length - 1)
      let sector := (unions.getD s3.2 default).sector
      (s3.1, s1.2 ++ " " ++ sector ++ " " ++ s2.2)
    else
      (c.1, s1.2 ++ " " ++ s2.2)
  else
    (s2.1, s1.2 ++ " " ++ s2.2)

-- ============================================
-- Cycle progression, src effects.ts
-- ============================================

/-- Loop body of `processCrackChecks`: walks the union record in insertion
order threading the RNG word, flipping failed unions to cracked+unlicensed
and accumulating the legitimacy / audit penalties.  Also returns the final
RNG word (which the source computes but never stores anywhere). -/
def crackLoop (a : Nat) (legPen auditPen : Int) :
    Rec UnionEntity → Rec UnionEntity × Int × Int × Nat
  | [] => ([], legPen, auditPen, a)
  | (k, u) :: rest =>
      if u.isCracked || !u.isLicensed then
        let r := crackLoop a legPen auditPen rest
        ((k, u) :: r.1, r.2)
      else
        let roll := rngNextInt a 1 100
        if (roll.2 : Int) ≤ getCrackRisk u then
          let u' := { u with isCracked := true, isLicensed := false }
          let r := crackLoop roll.1 (legPen - 2) (auditPen + 2) rest
          ((k, u') :: r.1, r.2)
        else
          let r := crackLoop roll.1 legPen auditPen rest
          ((k, u) :: r.1, r.2)

/-- `processCrackChecks(state)`: seeds an RNG from the state cursor, runs the
crack rolls, and returns only `{unions, penalties}` — the advanced RNG word is
dropped on the floor exactly as in the source. -/
def processCrackChecks (state : RunState) :
    Rec UnionEntity × ResourceEffects :=
  let r := crackLoop (rngInit state.rngCursor) 0 0 state.unions
  (r.1, { legitimacy := some r.2.1, auditRisk := some r.2.2.1 })

/-- The RNG word after all of `processCrackChecks`'s rolls (what
`rng.getCursor()` would return at the end of the loop; the source never
persists it). -/
def crackChecksFinalCursor (state : RunState) : Nat :=
  (crackLoop (rngInit state.rngCursor) 0 0 state.unions).2.2.2

/-- `applyCycleEnd(state)` from effects.ts: upkeep + crack checks, combined
clamped resource application, cycle increment, generation flag reset.  Note
the result keeps `state.rngCursor` unchanged: the source spreads `...state`
and never assigns `rngCursor`. -/
def applyCycleEnd (state : RunState) : RunState :=
  let upkeep := calculateUpkeep state
  let cc := processCrackChecks state
  let combinedEffects : ResourceEffects :=
    { upkeep with
      legitimacy := some (upkeep.legitimacy.getD 0 + cc.2.legitimacy.getD 0)
      auditRisk := some (upkeep.auditRisk.getD 0 + cc.2.auditRisk.getD 0) }
  { state with
    unions := cc.1
    resources := applyResourceEffects state.resources combinedEffects
    cycle := state.cycle + 1
    unionsGeneratedInCycle := false }

-- ============================================
-- Actions and reducer, src reducer.ts
-- ============================================

inductive GameAction where
  | RUN_START (seed : Option Nat) (showTips : Option Bool)
  | RUN_RESET
  | TURN_ADVANCE
  | UNION_GENERATE (count : Nat)
  | UNION_LICENSE (unionId : String)
  | UNION_LICENSE_RESULT (unionId : String) (success : Bool)
  | UNION_INCUBATE (unionId : String) (mode : IncubationMode)
  | UNION_DISSOLVE (unionId : String)
  | UNION_REASSIGN (unionId : String)
  | FEDERATION_CREATE (unionIds : List String)
  | EVENT_DRAW (eventId : String)
  | EVENT_CHOOSE (eventId : String) (choiceId : String)
      (effects : ResourceEffects) (unlocks : Option (List String))
  | EVENT_DISMISS
  | ELECTION_RESOLVE
  | TUTORIAL_DISMISS
  | SET_PHASE (phase : GamePhase)
deriving Repr, DecidableEq

/-- `UNION_GENERATE`'s `for` loop: `count` sequential `generateUnion` calls,
each inserted into the copied record under its fresh id. -/
def generateLoop (env : Ambient) (count a counter : Nat)
    (unions : Rec UnionEntity) : Nat × Rec UnionEntity :=
  match count with
  | 0 => (a, unions)
  | n + 1 =>
      let g := generateUnion env a counter
      generateLoop env n g.1 g.2.1 (recInsert unions g.2.2.id g.2.2)

/-- `[...new Set([...xs, ...ys])]`: order-preserving deduplication. -/
def dedupAppend (xs ys : List String) : List String :=
  (xs ++ ys).foldl (fun acc x => if acc.contains x then acc else acc ++ [x]) []

/-- The pure state-transition function `gameReducer(state, action)` of
reducer.ts, with the ambient context (`Date.now()`, the module-global id
counter, the unseeded `Math.random()` draw) made an explicit argument. -/
def gameReducer (env : Ambient) (state : RunState) (action : GameAction) :
    RunState :=
  match action with
  | GameAction.RUN_START seed showTips =>
      { createInitialState env seed (showTips.getD false) with
        phase := GamePhase.playing }
  | GameAction.RUN_RESET =>
      createInitialState env none false
  | GameAction.TURN_ADVANCE =>
      if state.cycle ≥ state.maxCycles then
        { state with phase := GamePhase.election }
      else
        let newState := applyCycleEnd state
        if (checkLoseCondition newState).isSome then
          { newState with phase := GamePhase.ended,
                          ending := some Ending.collapse }
        else
          { newState with phase := GamePhase.playing }
  | GameAction.UNION_GENERATE count =>
      if state.resources.paperwork < 1 || state.unionsGeneratedInCycle then
        state
      else
        let g := generateLoop env count (rngInit state.rngCursor)
          env.idCounter state.unions
        { state with
          unions := g.2
          rngCursor := g.1
          unionsGeneratedInCycle := true
          resources := applyResourceEffects state.resources
            { paperwork := some (-1) } }
  | GameAction.UNION_LICENSE unionId =>
      match recLookup state.unions unionId with
      | none => state
      | some u =>
          if u.isLicensed || u.isCracked then state
          else if state.resources.paperwork < 1 then state
          else
            let roll := rngNextInt (rngInit state.rngCursor) 1 100
            if (roll.2 : Int) ≤ getLicenseChance u then
              { state with
                unions := recInsert state.unions unionId
                  { u with isLicensed := true }
                resources := applyResourceEffects state.resources
                  { paperwork := some (-1) }
                rngCursor := roll.1 }
            else
              { state with
                resources := applyResourceEffects state.resources
                  { paperwork := some (-1), auditRisk := some 3 }
                rngCursor := roll.1 }
  | GameAction.UNION_INCUBATE unionId mode =>
      match recLookup state.unions unionId with
      | none => state
      | some u =>
          if u.isIncubated || u.isCracked then state
          else if state.resources.patronage < 2 then state
          else
            let updatedUnion :=
              match mode with
              | IncubationMode.paperwork =>
                  { u with
                    isIncubated := true
                    incubationMode := some IncubationMode.paperwork
                    plausibility := min 100 (u.plausibility + 15)
                    integrity := min 100 (u.integrity + 10)
                    loyalty := max 0 (u.loyalty - 10) }
              | IncubationMode.discipline =>
                  { u with
                    isIncubated := true
                    incubationMode := some IncubationMode.discipline
                    loyalty := min 100 (u.loyalty + 15)
                    integrity := min 100 (u.integrity + 10)
                    plausibility := max 0 (u.plausibility - 10) }
            let resourceEffects : ResourceEffects :=
              match mode with
              | IncubationMode.paperwork =>
                  { patronage := some (-2), streetHeat := some 2 }
              | IncubationMode.discipline =>
                  { patronage := some (-2) }
            { state with
              unions := recInsert state.unions unionId updatedUnion
              resources := applyResourceEffects state.resources
                resourceEffects }
  | GameAction.UNION_DISSOLVE unionId =>
      match recLookup state.unions unionId with
      | none => state
      | some u =>
          if (recValues state.federations).any
              (fun f => f.unionIds.contains unionId) then
            state
          else
            { state with
              unions := recRemove state.unions unionId
              resources := applyResourceEffects state.resources
                { paperwork := some (getDissolveReward u) } }
  | GameAction.UNION_REASSIGN unionId =>
      match recLookup state.unions unionId with
      | none => state
      | some u =>
          if (recValues state.federations).any
              (fun f => f.unionIds.contains unionId) then
            state
          else
            { state with
              unions := recRemove state.unions unionId
              resources := applyResourceEffects state.resources
                { patronage := some (getReassignReward u) } }
  | GameAction.FEDERATION_CREATE unionIds =>
      if unionIds.length < 2 then state
      else
        let unions := unionIds.filterMap (recLookup state.unions)
        if unions.length ≠ unionIds.length then state
        else if ¬ unions.all (fun u => u.isLicensed) then state
        else if unionIds.any (fun id =>
            (recValues state.federations).any
              (fun f => f.unionIds.contains id)) then
          state
        else if state.resources.paperwork < 2 ∨
            state.resources.patronage < 3 then
          state
        else
          let ng := generateFederationName (rngInit state.rngCursor) unions
          let federation : FederationEntity :=
            { id := "fed_" ++ Nat.repr env.now
              name := ng.2
              unionIds := unionIds
              delegates := 2
              recognition := Recognition.recognized
              visibility := 50 }
          { state with
            federations := recInsert state.federations federation.id
              federation
            rngCursor := ng.1
            resources := applyResourceEffects state.resources
              { paperwork := some (-2), patronage := some (-3),
                auditRisk := some 5 } }
  | GameAction.EVENT_DRAW eventId =>
      { state with phase := GamePhase.event, currentEventId := some eventId }
  | GameAction.EVENT_CHOOSE eventId _choiceId effects unlocks =>
      let newResources := applyResourceEffects state.resources effects
      let newUnlocks :=
        match unlocks with
        | some us => dedupAppend state.unlockedFootnotes us
        | none => state.unlockedFootnotes
      let intermediateState : RunState :=
        { state with
          resources := newResources
          unlockedFootnotes := newUnlocks
          eventHistory := state.eventHistory ++ [eventId]
          currentEventId := none }
      if (checkLoseCondition intermediateState).isSome then
        { intermediateState with phase := GamePhase.ended,
                                 ending := some Ending.collapse }
      else if intermediateState.cycle ≥ intermediateState.maxCycles then
        { intermediateState with phase := GamePhase.election }
      else
        let advanced := applyCycleEnd intermediateState
        if (checkLoseCondition advanced).isSome then
          { advanced with phase := GamePhase.ended,
                          ending := some Ending.collapse }
        else
          { advanced with phase := GamePhase.playing }
  | GameAction.EVENT_DISMISS =>
      { state with phase := GamePhase.playing, currentEventId := none }
  | GameAction.ELECTION_RESOLVE =>
      let totalDelegates : Int :=
        ((recValues state.federations).filter
          (fun f => f.recognition = Recognition.recognized)).foldl
          (fun sum f => sum + f.delegates) 0
      let ending :=
        if totalDelegates ≥ 6 then Ending.capture else Ending.collapse
      { state with phase := GamePhase.ended, ending := some ending }
  | GameAction.TUTORIAL_DISMISS =>
      { state with showTips := false }
  | GameAction.SET_PHASE phase =>
      { state with phase := phase }
  | GameAction.UNION_LICENSE_RESULT _ _ =>
      -- no such case in the reducer switch: falls through to `default`
      state

-- ============================================
-- Election-night delegate rolls (ElectionNight UI screen)
-- ============================================

/-- `getFederationReliability(fed, unions)` returns the float
`(avgLoyalty / 100) * 2` (0 for an empty member list); the election screen
immediately converts it back to `loyaltyPercent = (reliability / 2) * 100 =
avgLoyalty`.  The embedding keeps avgLoyalty as the exact rational
(sum of member loyalties, member count), with (0, 1) for an empty member
list, so the integer-roll comparison `roll <= loyaltyPercent` becomes the
exact `roll * den ≤ num`. -/
def federationLoyaltyPercent (fed : FederationEntity)
    (unions : Rec UnionEntity) : Int × Nat :=
  let memberUnions := fed.unionIds.filterMap (recLookup unions)
  match memberUnions with
  | [] => (0, 1)
  | ms => (ms.foldl (fun sum u => sum + u.loyalty) 0, ms.length)

/-- The two per-delegate rolls for one recognized federation in the
ElectionNight effect: each draws `nextInt(1,100)` and succeeds when
`roll <= loyaltyPercent`. -/
def electionFedRolls (a : Nat) (num : Int) (den : Nat) : Nat × Nat :=
  let r1 := rngNextInt a 1 100
  let s1 : Nat := if (r1.2 : Int) * den ≤ num then 1 else 0
  let r2 := rngNextInt r1.1 1 100
  let s2 : Nat := if (r2.2 : Int) * den ≤ num then 1 else 0
  (r2.1, s1 + s2)

/-- The ElectionNight screen's roll loop: walks `Object.values(federations)`
in insertion order, skipping unrecognized federations (no rolls consumed for
them), accumulating secured delegates. -/
def electionNightLoop (a : Nat) (unions : Rec UnionEntity) :
    List FederationEntity → Nat
  | [] => 0
  | fed :: rest =>
      if fed.recognition ≠ Recognition.recognized then
        electionNightLoop a unions rest
      else
        let lp := federationLoyaltyPercent fed unions
        let r := electionFedRolls a lp.1 lp.2
        r.2 + electionNightLoop r.1 unions rest

/-- Total secured delegates displayed by the ElectionNight screen: rolls are
drawn from `createRNG(state.rngCursor + 999)` (the offset stream). -/
def electionNightSecured (state : RunState) : Nat :=
  electionNightLoop (rngInit (state.rngCursor + 999)) state.unions
    (recValues state.federations)

-- ============================================
-- Auxiliary predicates and concrete fixtures
-- ============================================

/-- Actions whose handler can read the ambient context: entity creation
(`generateId` / the federation id read `Date.now()` and the global counter)
and run (re)initialization without a caller-supplied seed (`Math.random()`). -/
def ambientFree : GameAction → Bool
  | GameAction.RUN_START (some _) _ => true
  | GameAction.RUN_START none _ => false
  | GameAction.RUN_RESET => false
  | GameAction.UNION_GENERATE _ => false
  | GameAction.FEDERATION_CREATE _ => false
  | _ => true

/-- Full-reset actions (they rebuild the state from `createInitialState`). -/
def isRunReset : GameAction → Bool
  | GameAction.RUN_START _ _ => true
  | GameAction.RUN_RESET => true
  | _ => false

/-- Precondition under which `FEDERATION_CREATE` creates a federation
(note: no distinctness requirement on the ids). -/
def fedCreateOk (s : RunState) (ids : List String) : Bool :=
  decide (2 ≤ ids.length) &&
  decide ((ids.filterMap (recLookup s.unions)).length = ids.length) &&
  (ids.filterMap (recLookup s.unions)).all (fun u => u.isLicensed) &&
  !(ids.any (fun id =>
      (recValues s.federations).any (fun f => f.unionIds.contains id))) &&
  decide (2 ≤ s.resources.paperwork) && decide (3 ≤ s.resources.patronage)

def env0 : Ambient := { now := 0, idCounter := 0, randomDraw := 0 }

/-- A fresh mid-run state (the initial state advanced to `playing`). -/
def baseState : RunState :=
  { seed := 42, rngCursor := 42, cycle := 1, maxCycles := 5,
    phase := GamePhase.playing, resources := DEFAULT_RESOURCES,
    unions := [], federations := [], eventHistory := [],
    currentEventId := none, unlockedFootnotes := [], ending := none,
    showTips := false, unionsGeneratedInCycle := false }

/-- A licensed, uncracked union with loyalty 0 (member for the election
scenario). -/
def zeroLoyaltyUnion (n : Nat) : UnionEntity :=
  { id := "u" ++ Nat.repr n, name := "U" ++ Nat.repr n, sector := "Textile",
    plausibility := 80, loyalty := 0, integrity := 50, maintenanceCost := 0,
    tags := ["shell", "compliant"], isIncubated := false, isLicensed := true,
    isCracked := false, incubationMode := none }

/-- Six recognized federations (2 delegates each), every member union with
loyalty 0: the spec's election scenario. -/
def electionScenarioState : RunState :=
  { baseState with
    cycle := 5
    phase := GamePhase.election
    unions := (List.range 12).map
      (fun n => ("u" ++ Nat.repr n, zeroLoyaltyUnion n))
    federations := (List.range 6).map (fun k =>
      ("f" ++ Nat.repr k,
       { id := "f" ++ Nat.repr k
         name := "Fed " ++ Nat.repr k
         unionIds := ["u" ++ Nat.repr (2 * k), "u" ++ Nat.repr (2 * k + 1)]
         delegates := 2
         recognition := Recognition.recognized
         visibility := 50 })) }

/-- A licensed union eligible for federation bundling. -/
def licensedUnion (idStr : String) : UnionEntity :=
  { id := idStr, name := "L " ++ idStr, sector := "Transport",
    plausibility := 60, loyalty := 70, integrity := 40, maintenanceCost := 1,
    tags := ["captured"], isIncubated := false, isLicensed := true,
    isCracked := false, incubationMode := none }

/-- State holding two licensed unions and enough resources to federate. -/
def fedCreateState : RunState :=
  { baseState with
    unions := [("u1", licensedUnion "u1"), ("u2", licensedUnion "u2")] }

/-- State with one licensed, uncracked union (crack checks draw one roll). -/
def oneLicensedState : RunState :=
  { baseState with unions := [("u1", licensedUnion "u1")] }

/-- An unlicensed union with plausibility 0 (license chance 30); at cursor 42
the license roll is 61 > 30, so licensing fails. -/
def implausibleUnion : UnionEntity :=
  { id := "u1", name := "Implausible", sector := "Postal",
    plausibility := 0, loyalty := 50, integrity := 50, maintenanceCost := 1,
    tags := ["volatile"], isIncubated := false, isLicensed := false,
    isCracked := false, incubationMode := none }

def licenseFailState : RunState :=
  { baseState with unions := [("u1", implausibleUnion)] }

/-- A finished run (phase `ended`). -/
def endedState : RunState :=
  { baseState with
    cycle := 5
    phase := GamePhase.ended
    ending := some Ending.collapse }

/-- A state at the cycle cap (the next cycle-closing action triggers the
election). -/
def atCapState : RunState :=
  { baseState with
    cycle := 5
    unionsGeneratedInCycle := true }

-- ============================================
-- Theorems
-- ============================================

/-- Bounds of `clamp` (the single mutation funnel of effects.ts). -/
theorem clamp_mem (v lo hi : Int) (h : lo ≤ hi) :
    lo ≤ clamp v lo hi ∧ clamp v lo hi ≤ hi := by
  unfold clamp
  exact ⟨le_max_left _ _, max_le h (min_le_left _ _)⟩

/-- C5: for every resources record and every effects delta of any magnitude
or sign, `applyResourceEffects` returns paperwork in [0,10], patronage in
[0,20], and legitimacy, auditRisk, streetHeat in [0,100]; likewise
`applyUnionEffects` returns plausibility, loyalty, and integrity in
[0,100] for every union and stat delta. -/
theorem clamping_invariant (r : Resources) (e : ResourceEffects)
    (u : UnionEntity) (ue : UnionStatEffects) :
    (0 ≤ (applyResourceEffects r e).paperwork ∧
      (applyResourceEffects r e).paperwork ≤ 10) ∧
    (0 ≤ (applyResourceEffects r e).patronage ∧
      (applyResourceEffects r e).patronage ≤ 20) ∧
    (0 ≤ (applyResourceEffects r e).legitimacy ∧
      (applyResourceEffects r e).legitimacy ≤ 100) ∧
    (0 ≤ (applyResourceEffects r e).auditRisk ∧
      (applyResourceEffects r e).auditRisk ≤ 100) ∧
    (0 ≤ (applyResourceEffects r e).streetHeat ∧
      (applyResourceEffects r e).streetHeat ≤ 100) ∧
    (0 ≤ (applyUnionEffects u ue).plausibility ∧
      (applyUnionEffects u ue).plausibility ≤ 100) ∧
    (0 ≤ (applyUnionEffects u ue).loyalty ∧
      (applyUnionEffects u ue).loyalty ≤ 100) ∧
    (0 ≤ (applyUnionEffects u ue).integrity ∧
      (applyUnionEffects u ue).integrity ≤ 100) := by
  refine ⟨?_, ?_, ?_, ?_, ?_, ?_, ?_, ?_⟩ <;>
    exact clamp_mem _ _ _ (by norm_num)

/-- C7: for stats in [0,100], `getLicenseChance` (= min(95, 30 + ⌊p·0.6⌋))
lies in [30,95] and `getCrackRisk` (= max(5, 40 − ⌊i·0.35⌋)) lies in
[5,40]. -/
theorem probability_formula_ranges (u : UnionEntity)
    (hp0 : 0 ≤ u.plausibility) (hp1 : u.plausibility ≤ 100)
    (hi0 : 0 ≤ u.integrity) (hi1 : u.integrity ≤ 100) :
    (30 ≤ getLicenseChance u ∧ getLicenseChance u ≤ 95) ∧
    (5 ≤ getCrackRisk u ∧ getCrackRisk u ≤ 40) := by
  unfold getLicenseChance getCrackRisk
  have h1 : 0 ≤ (3 * u.plausibility).ediv 5 :=
    Int.ediv_nonneg (by omega) (by norm_num)
  have h2 : 0 ≤ (7 * u.integrity).ediv 20 :=
    Int.ediv_nonneg (by omega) (by norm_num)
  refine ⟨⟨le_min (by norm_num) (by omega), min_le_left _ _⟩,
          ⟨le_max_left _ _, max_le (by norm_num) (by omega)⟩⟩

/-- Witness for C7 at a concrete union (plausibility 80, integrity 50). -/
theorem probability_formula_ranges_witness :
    (30 ≤ getLicenseChance (zeroLoyaltyUnion 0) ∧
      getLicenseChance (zeroLoyaltyUnion 0) ≤ 95) ∧
    (5 ≤ getCrackRisk (zeroLoyaltyUnion 0) ∧
      getCrackRisk (zeroLoyaltyUnion 0) ≤ 40) :=
  probability_formula_ranges (zeroLoyaltyUnion 0)
    (by decide) (by decide) (by decide) (by decide)

/-- C1: with 6 recognized federations whose members all have loyalty 0, the
election-night screen's per-delegate Bernoulli rolls secure 0 delegates
(a roll ≥ 1 never passes a 0% threshold), yet `gameReducer` on
`ELECTION_RESOLVE` ends the run with ending `capture`: it sums the nominal
delegates of recognized federations (12 ≥ 6) and never consults the rolls,
contradicting §4.7 of the spec and the handler's own `TODO: Implement proper
election logic` note. -/
theorem election_resolve_ignores_delegate_rolls :
    (gameReducer env0 electionScenarioState GameAction.ELECTION_RESOLVE).ending
      = some Ending.capture ∧
    (gameReducer env0 electionScenarioState GameAction.ELECTION_RESOLVE).phase
      = GamePhase.ended ∧
    electionNightSecured electionScenarioState = 0 ∧
    (recValues electionScenarioState.federations).length = 6 ∧
    ∀ f ∈ recValues electionScenarioState.federations,
      f.recognition = Recognition.recognized ∧ f.delegates = 2 ∧
      ∀ u ∈ f.unionIds.filterMap (recLookup electionScenarioState.unions),
        u.loyalty = 0 := by
  refine ⟨by decide, by decide, by decide, by decide, ?_⟩
  decide

/-- C4: `applyCycleEnd` never advances the RNG cursor: the result's
`rngCursor` always equals the input's, even though `processCrackChecks`
consumed a draw for the licensed, uncracked union of the concrete state
(the post-roll cursor differs from the stored one). -/
theorem cycle_end_discards_rng_cursor :
    (∀ s : RunState, (applyCycleEnd s).rngCursor = s.rngCursor) ∧
    (applyCycleEnd oneLicensedState).rngCursor = oneLicensedState.rngCursor ∧
    crackChecksFinalCursor oneLicensedState ≠ oneLicensedState.rngCursor := by
  exact ⟨fun _ => rfl, by decide, by decide⟩

/-- C6 counterexample: dispatching `SET_PHASE 'playing'` (not a reset) in a
state with phase `ended` changes the state — `ended` is not terminal and no
phase validation occurs. -/
theorem ended_not_terminal_counterexample :
    gameReducer env0 endedState (GameAction.SET_PHASE GamePhase.playing)
      ≠ endedState := by
  decide

/-- C6 amended: the reducer performs no phase validation: `SET_PHASE` always
installs the requested phase regardless of the current one (in particular it
leaves `ended`), and `TURN_ADVANCE` at the cycle cap moves any state — also
an `ended` one — to `election`. -/
theorem no_phase_validation (env : Ambient) (s : RunState) (p : GamePhase) :
    (gameReducer env s (GameAction.SET_PHASE p)).phase = p ∧
    (s.maxCycles ≤ s.cycle →
      (gameReducer env s GameAction.TURN_ADVANCE).phase =
        GamePhase.election) := by
  constructor
  · rfl
  · intro h
    unfold gameReducer
    rw [if_pos h]

/-- Witness for C6's amended statement at the concrete `ended` state. -/
theorem no_phase_validation_witness :
    (gameReducer env0 endedState
      (GameAction.SET_PHASE GamePhase.playing)).phase = GamePhase.playing ∧
    (gameReducer env0 endedState GameAction.TURN_ADVANCE).phase =
      GamePhase.election :=
  ⟨(no_phase_validation env0 endedState GamePhase.playing).1,
   (no_phase_validation env0 endedState GamePhase.playing).2 (by decide)⟩

/-- C2 counterexample: the same state, action (`UNION_GENERATE 1`) and RNG
cursor produce different result states when `Date.now()` differs between the
two invocations — the generated union's id embeds the wall-clock time, so the
reducer is not a function of (state, action, cursor) alone. -/
theorem reducer_not_bit_reproducible :
    gameReducer { now := 1000, idCounter := 0, randomDraw := 0 } baseState
        (GameAction.UNION_GENERATE 1) ≠
      gameReducer { now := 2000, idCounter := 0, randomDraw := 0 } baseState
        (GameAction.UNION_GENERATE 1) := by
  decide

/-- C2 amended: the reducer is bit-reproducible from (state, action, cursor)
for every action that does not mint entity ids or reseed from
`Math.random()`: for those actions the ambient context (wall clock, global id
counter, unseeded random draw) is irrelevant.  The excepted actions —
`UNION_GENERATE`, `FEDERATION_CREATE`, `RUN_RESET`, and `RUN_START` without a
caller seed — read `Date.now()` / the module counter / `Math.random()`, so
their results (the created ids) additionally depend on that context. -/
theorem reducer_deterministic_modulo_ambient (e1 e2 : Ambient) (s : RunState)
    (a : GameAction) (h : ambientFree a = true) :
    gameReducer e1 s a = gameReducer e2 s a := by
  cases a with
  | RUN_START seed tips =>
      cases seed with
      | none => simp [ambientFree] at h
      | some v => rfl
  | RUN_RESET => simp [ambientFree] at h
  | UNION_GENERATE n => simp [ambientFree] at h
  | FEDERATION_CREATE ids => simp [ambientFree] at h
  | TURN_ADVANCE => rfl
  | UNION_LICENSE uid => rfl
  | UNION_LICENSE_RESULT uid ok => rfl
  | UNION_INCUBATE uid mode => rfl
  | UNION_DISSOLVE uid => rfl
  | UNION_REASSIGN uid => rfl
  | EVENT_DRAW eid => rfl
  | EVENT_CHOOSE eid cid eff unl => rfl
  | EVENT_DISMISS => rfl
  | ELECTION_RESOLVE => rfl
  | TUTORIAL_DISMISS => rfl
  | SET_PHASE p => rfl

/-- Witness for C2's amended statement: two different ambient contexts give
the same `TURN_ADVANCE` result. -/
theorem reducer_deterministic_modulo_ambient_witness :
    gameReducer { now := 1000, idCounter := 7, randomDraw := 3 } baseState
        GameAction.TURN_ADVANCE =
      gameReducer { now := 2000, idCounter := 9, randomDraw := 8 } baseState
        GameAction.TURN_ADVANCE :=
  reducer_deterministic_modulo_ambient
    { now := 1000, idCounter := 7, randomDraw := 3 }
    { now := 2000, idCounter := 9, randomDraw := 8 }
    baseState GameAction.TURN_ADVANCE rfl

/-- C3 counterexample: a duplicated union id (`["u1", "u1"]`) is accepted —
the claim requires distinct ids but the code never checks distinctness, so
the state changes (a two-slot federation whose member list repeats `u1` is
created). -/
theorem federation_create_accepts_duplicates :
    gameReducer env0 fedCreateState
        (GameAction.FEDERATION_CREATE ["u1", "u1"]) ≠ fedCreateState := by
  decide

/-- Unpacking of `fedCreateOk` into the reducer's five guard conditions. -/
theorem fedCreateOk_iff (s : RunState) (ids : List String) :
    fedCreateOk s ids = true ↔
      (2 ≤ ids.length ∧
       (ids.filterMap (recLookup s.unions)).length = ids.length ∧
       (ids.filterMap (recLookup s.unions)).all (fun u => u.isLicensed)
         = true ∧
       ids.any (fun id =>
         (recValues s.federations).any (fun f => f.unionIds.contains id))
         = false ∧
       2 ≤ s.resources.paperwork ∧ 3 ≤ s.resources.patronage) := by
  simp [fedCreateOk, Bool.and_eq_true, decide_eq_true_eq, Bool.not_eq_true',
    and_assoc]

/-- C3 amended: `FEDERATION_CREATE` produces a new federation exactly when
the supplied ids number ≥ 2 (distinctness is NOT required — duplicates are
accepted), each id names an existing licensed union, none is a member of any
federation, paperwork ≥ 2 and patronage ≥ 3; the created federation has
delegates = 2 and recognition `recognized`, the costs (−2 paperwork,
−3 patronage) are deducted together with the fixed +5 audit-risk penalty
(all clamped), and in every other case the state is returned unchanged. -/
theorem federation_create_characterization (env : Ambient) (s : RunState)
    (ids : List String) :
    (fedCreateOk s ids = true →
      gameReducer env s (GameAction.FEDERATION_CREATE ids) =
        { s with
          federations := recInsert s.federations
            ("fed_" ++ Nat.repr env.now)
            { id := "fed_" ++ Nat.repr env.now
              name := (generateFederationName (rngInit s.rngCursor)
                (ids.filterMap (recLookup s.unions))).2
              unionIds := ids
              delegates := 2
              recognition := Recognition.recognized
              visibility := 50 }
          rngCursor := (generateFederationName (rngInit s.rngCursor)
            (ids.filterMap (recLookup s.unions))).1
          resources := applyResourceEffects s.resources
            { paperwork := some (-2), patronage := some (-3),
              auditRisk := some 5 } }) ∧
    (fedCreateOk s ids = true →
      (gameReducer env s
          (GameAction.FEDERATION_CREATE ids)).resources.paperwork
        < s.resources.paperwork) ∧
    (fedCreateOk s ids = false →
      gameReducer env s (GameAction.FEDERATION_CREATE ids) = s) := by
  have main : (fedCreateOk s ids = true →
      gameReducer env s (GameAction.FEDERATION_CREATE ids) =
        { s with
          federations := recInsert s.federations
            ("fed_" ++ Nat.repr env.now)
            { id := "fed_" ++ Nat.repr env.now
              name := (generateFederationName (rngInit s.rngCursor)
                (ids.filterMap (recLookup s.unions))).2
              unionIds := ids
              delegates := 2
              recognition := Recognition.recognized
              visibility := 50 }
          rngCursor := (generateFederationName (rngInit s.rngCursor)
            (ids.filterMap (recLookup s.unions))).1
          resources := applyResourceEffects s.resources
            { paperwork := some (-2), patronage := some (-3),
              auditRisk := some 5 } }) := by
    intro h
    rw [fedCreateOk_iff] at h
    obtain ⟨h1, h2, h3, h4, h5, h6⟩ := h
    unfold gameReducer
    dsimp only
    rw [if_neg (show ¬(ids.length < 2) by omega),
      if_neg (not_not_intro h2),
      if_neg (not_not_intro h3),
      if_neg (show ¬(ids.any (fun id => (recValues s.federations).any
        (fun f => f.unionIds.contains id)) = true) by
          rw [h4]; exact Bool.false_ne_true),
      if_neg (show ¬(s.resources.paperwork < 2 ∨
        s.resources.patronage < 3) by omega)]
  refine ⟨main, fun h => ?_, fun h => ?_⟩
  · rw [main h]
    have h5 : 2 ≤ s.resources.paperwork := ((fedCreateOk_iff s ids).mp h).2.2.2.2.1
    simp only [applyResourceEffects, clamp, Option.getD]
    omega
  · have hn : ¬(2 ≤ ids.length ∧
        (ids.filterMap (recLookup s.unions)).length = ids.length ∧
        (ids.filterMap (recLookup s.unions)).all (fun u => u.isLicensed)
          = true ∧
        ids.any (fun id =>
          (recValues s.federations).any (fun f => f.unionIds.contains id))
          = false ∧
        2 ≤ s.resources.paperwork ∧ 3 ≤ s.resources.patronage) := by
      intro hc
      rw [← fedCreateOk_iff] at hc
      rw [h] at hc
      exact Bool.false_ne_true hc
    unfold gameReducer
    dsimp only
    by_cases g1 : ids.length < 2
    · rw [if_pos g1]
    rw [if_neg g1]
    by_cases g2 : (ids.filterMap (recLookup s.unions)).length ≠ ids.length
    · rw [if_pos g2]
    rw [if_neg g2]
    by_cases g3 : ¬((ids.filterMap (recLookup s.unions)).all
      (fun u => u.isLicensed) = true)
    · rw [if_pos g3]
    rw [if_neg g3]
    by_cases g4 : (ids.any (fun id => (recValues s.federations).any
      (fun f => f.unionIds.contains id))) = true
    · rw [if_pos g4]
    rw [if_neg g4]
    by_cases g5 : s.resources.paperwork < 2 ∨ s.resources.patronage < 3
    · rw [if_pos g5]
    exfalso
    apply hn
    refine ⟨by omega, not_ne_iff.mp g2, not_not.mp g3, ?_, by omega, by omega⟩
    cases hx : ids.any (fun id => (recValues s.federations).any
      (fun f => f.unionIds.contains id))
    · rfl
    · exact absurd hx g4

/-- Witness for C3's amended statement: two distinct licensed unions are
federated and the paperwork cost is actually charged. -/
theorem federation_create_characterization_witness :
    (gameReducer env0 fedCreateState
        (GameAction.FEDERATION_CREATE ["u1", "u2"])).resources.paperwork
      < fedCreateState.resources.paperwork :=
  (federation_create_characterization env0 fedCreateState
    ["u1", "u2"]).2.1 (by decide)

set_option maxHeartbeats 1600000 in
/-- How any action can move the generation flag: it is either preserved, set
to `true`, accompanied by a cycle increment (cycle-end transition), or the
action is a full reset. -/
theorem reducer_flag_cases (env : Ambient) (s : RunState) (a : GameAction) :
    (gameReducer env s a).unionsGeneratedInCycle = s.unionsGeneratedInCycle ∨
    (gameReducer env s a).unionsGeneratedInCycle = true ∨
    (gameReducer env s a).cycle = s.cycle + 1 ∨
    isRunReset a = true := by
  cases a with
  | RUN_START seed tips => exact Or.inr (Or.inr (Or.inr rfl))
  | RUN_RESET => exact Or.inr (Or.inr (Or.inr rfl))
  | TURN_ADVANCE =>
      unfold gameReducer
      dsimp only
      by_cases h : s.cycle ≥ s.maxCycles
      · rw [if_pos h]; exact Or.inl rfl
      · rw [if_neg h]
        split_ifs <;> exact Or.inr (Or.inr (Or.inl rfl))
  | UNION_GENERATE n =>
      unfold gameReducer
      dsimp only
      split_ifs
      · exact Or.inl rfl
      · exact Or.inr (Or.inl rfl)
  | UNION_LICENSE uid =>
      left
      unfold gameReducer
      dsimp only
      cases hl : recLookup s.unions uid with
      | none => rfl
      | some u => dsimp only; split_ifs <;> rfl
  | UNION_LICENSE_RESULT uid ok => exact Or.inl rfl
  | UNION_INCUBATE uid mode =>
      left
      unfold gameReducer
      dsimp only
      cases hl : recLookup s.unions uid with
      | none => rfl
      | some u => dsimp only; split_ifs <;> rfl
  | UNION_DISSOLVE uid =>
      left
      unfold gameReducer
      dsimp only
      cases hl : recLookup s.unions uid with
      | none => rfl
      | some u => dsimp only; split_ifs <;> rfl
  | UNION_REASSIGN uid =>
      left
      unfold gameReducer
      dsimp only
      cases hl : recLookup s.unions uid with
      | none => rfl
      | some u => dsimp only; split_ifs <;> rfl
  | FEDERATION_CREATE ids =>
      left
      unfold gameReducer
      dsimp only
      split_ifs <;> rfl
  | EVENT_DRAW eid => exact Or.inl rfl
  | EVENT_CHOOSE eid cid eff unl =>
      unfold gameReducer
      dsimp only
      split_ifs <;>
        first
          | exact Or.inl rfl
          | exact Or.inr (Or.inr (Or.inl rfl))
  | EVENT_DISMISS => exact Or.inl rfl
  | ELECTION_RESOLVE => exact Or.inl rfl
  | TUTORIAL_DISMISS => exact Or.inl rfl
  | SET_PHASE p => exact Or.inl rfl

/-- C8: a `UNION_GENERATE` dispatched while the per-cycle flag is set returns
the state completely unchanged (no unions, no paperwork charge); a successful
generation sets the flag; `applyCycleEnd` (the cycle-end transition) resets
it; and any non-reset action that drops the flag from `true` to `false` did
so through the cycle-end transition (its result's cycle counter is the
input's plus one). -/
theorem generation_throttle (env : Ambient) (s : RunState) (n : Nat)
    (a : GameAction) :
    (s.unionsGeneratedInCycle = true →
      gameReducer env s (GameAction.UNION_GENERATE n) = s) ∧
    (s.unionsGeneratedInCycle = false → 1 ≤ s.resources.paperwork →
      (gameReducer env s
        (GameAction.UNION_GENERATE n)).unionsGeneratedInCycle = true) ∧
    (applyCycleEnd s).unionsGeneratedInCycle = false ∧
    (s.unionsGeneratedInCycle = true →
      (gameReducer env s a).unionsGeneratedInCycle = false →
      (gameReducer env s a).cycle = s.cycle + 1 ∨ isRunReset a = true) := by
  refine ⟨?_, ?_, rfl, ?_⟩
  · intro hf
    unfold gameReducer
    dsimp only
    rw [if_pos (by simp [hf])]
  · intro hf hp
    unfold gameReducer
    dsimp only
    rw [if_neg (by simp [hf, decide_eq_true_eq]; omega)]
  · intro hf hdrop
    rcases reducer_flag_cases env s a with hc | hc | hc | hc
    · rw [hdrop, hf] at hc
      exact absurd hc Bool.false_ne_true
    · rw [hdrop] at hc
      exact absurd hc Bool.false_ne_true
    · exact Or.inl hc
    · exact Or.inr hc

/-- Witness for C8 at a concrete flag-set state. -/
theorem generation_throttle_witness :
    gameReducer env0 atCapState (GameAction.UNION_GENERATE 3) = atCapState :=
  (generation_throttle env0 atCapState 3 GameAction.TURN_ADVANCE).1 rfl

/-- C9: when a `UNION_LICENSE` roll fails (roll exceeds the license chance)
for an existing, unlicensed, uncracked union with paperwork available, the
result keeps the unions collection (and every other field) unchanged, charges
1 paperwork, adds 3 (clamped) audit risk, and advances the cursor by exactly
the one draw. -/
theorem union_license_failure_frame (env : Ambient) (s : RunState)
    (uid : String) (u : UnionEntity)
    (hu : recLookup s.unions uid = some u)
    (hlic : u.isLicensed = false) (hcr : u.isCracked = false)
    (hpw : 1 ≤ s.resources.paperwork)
    (hroll : getLicenseChance u <
      ((rngNextInt (rngInit s.rngCursor) 1 100).2 : Int)) :
    gameReducer env s (GameAction.UNION_LICENSE uid) =
      { s with
        resources := applyResourceEffects s.resources
          { paperwork := some (-1), auditRisk := some 3 }
        rngCursor := (rngNextInt (rngInit s.rngCursor) 1 100).1 } ∧
    (gameReducer env s (GameAction.UNION_LICENSE uid)).unions = s.unions ∧
    (s.resources.paperwork ≤ 10 →
      (gameReducer env s (GameAction.UNION_LICENSE uid)).resources.paperwork
        = s.resources.paperwork - 1) ∧
    (0 ≤ s.resources.auditRisk →
      (gameReducer env s (GameAction.UNION_LICENSE uid)).resources.auditRisk
        = min 100 (s.resources.auditRisk + 3)) := by
  have hmain : gameReducer env s (GameAction.UNION_LICENSE uid) =
      { s with
        resources := applyResourceEffects s.resources
          { paperwork := some (-1), auditRisk := some 3 }
        rngCursor := (rngNextInt (rngInit s.rngCursor) 1 100).1 } := by
    unfold gameReducer
    dsimp only
    rw [hu]
    dsimp only
    rw [if_neg (by simp [hlic, hcr]), if_neg (by omega),
      if_neg (not_le.mpr hroll)]
  refine ⟨hmain, by rw [hmain], ?_, ?_⟩
  · intro hb
    rw [hmain]
    show clamp (s.resources.paperwork + -1) 0 10 = s.resources.paperwork - 1
    unfold clamp
    rw [min_eq_right (by omega), max_eq_right (by omega)]
    omega
  · intro hb
    rw [hmain]
    show clamp (s.resources.auditRisk + 3) 0 100
      = min 100 (s.resources.auditRisk + 3)
    unfold clamp
    rw [max_eq_right (le_min (by omega) (by omega))]

/-- Witness for C9: plausibility-0 union (chance 30), cursor 42 (roll 61). -/
theorem union_license_failure_frame_witness :
    gameReducer env0 licenseFailState (GameAction.UNION_LICENSE "u1") =
      { licenseFailState with
        resources := applyResourceEffects licenseFailState.resources
          { paperwork := some (-1), auditRisk := some 3 }
        rngCursor :=
          (rngNextInt (rngInit licenseFailState.rngCursor) 1 100).1 } :=
  (union_license_failure_frame env0 licenseFailState "u1" implausibleUnion
    (by decide) rfl rfl (by decide) (by decide)).1

/-- C10: with the cycle counter at or past `maxCycles`, an `EVENT_CHOOSE`
whose post-effect state passes the loss check moves to phase `election`
without upkeep or crack checks — cycle, unions, rngCursor are untouched and
resources carry only the choice's direct effects; a `TURN_ADVANCE` at the cap
changes nothing but the phase. -/
theorem cycle_cap_goes_to_election (env : Ambient) (s : RunState)
    (eid cid : String) (effects : ResourceEffects)
    (unlocks : Option (List String))
    (hcap : s.maxCycles ≤ s.cycle)
    (hlose : checkLoseCondition
      { s with resources := applyResourceEffects s.resources effects }
        = none) :
    ((gameReducer env s
        (GameAction.EVENT_CHOOSE eid cid effects unlocks)).phase
          = GamePhase.election ∧
      (gameReducer env s
        (GameAction.EVENT_CHOOSE eid cid effects unlocks)).cycle = s.cycle ∧
      (gameReducer env s
        (GameAction.EVENT_CHOOSE eid cid effects unlocks)).unions
          = s.unions ∧
      (gameReducer env s
        (GameAction.EVENT_CHOOSE eid cid effects unlocks)).rngCursor
          = s.rngCursor ∧
      (gameReducer env s
        (GameAction.EVENT_CHOOSE eid cid effects unlocks)).resources
          = applyResourceEffects s.resources effects) ∧
    gameReducer env s GameAction.TURN_ADVANCE =
      { s with phase := GamePhase.election } := by
  have hr : gameReducer env s (GameAction.EVENT_CHOOSE eid cid effects unlocks)
      = { s with
          resources := applyResourceEffects s.resources effects
          unlockedFootnotes :=
            (match unlocks with
             | some us => dedupAppend s.unlockedFootnotes us
             | none => s.unlockedFootnotes)
          eventHistory := s.eventHistory ++ [eid]
          currentEventId := none
          phase := GamePhase.election } := by
    unfold gameReducer
    dsimp only
    split_ifs with hc
    · exfalso
      simp only [checkLoseCondition] at hc hlose
      rw [hlose] at hc
      simp at hc
    · rfl
  refine ⟨⟨by rw [hr], by rw [hr], by rw [hr], by rw [hr], by rw [hr]⟩, ?_⟩
  unfold gameReducer
  rw [if_pos hcap]

/-- Witness for C10 at the concrete capped state with an empty effects
bundle. -/
theorem cycle_cap_goes_to_election_witness :
    (gameReducer env0 atCapState
      (GameAction.EVENT_CHOOSE "e1" "c1" {} none)).phase
        = GamePhase.election ∧
    gameReducer env0 atCapState GameAction.TURN_ADVANCE =
      { atCapState with phase := GamePhase.election } :=
  ⟨((cycle_cap_goes_to_election env0 atCapState "e1" "c1" {} none
      (by decide) (by decide)).1).1,
   (cycle_cap_goes_to_election env0 atCapState "e1" "c1" {} none
      (by decide) (by decide)).2⟩

end Hatchery
